import Mathlib

/-!
Verification development for the moravian-star lampshade mesh generator.

The definitions below are a shallow embedding of the Python sources:
  - `lerp`, `clamp`                    from lampshade/utils.py
  - `Params` and its two update rules  from lampshade/params.py
  - `quadratic_profile`, `design_offset`, `compute_outer_vertex`,
    `build_mesh_arrays` and its region loops
                                       from lampshade/geometry.py
Python floats are modelled as real numbers, int-annotated fields as
integers; the mutable vertex/face buffers of the mesh builder are
modelled by explicit state passing (`MeshState`).
-/

noncomputable section

/-- `utils.lerp`: linear interpolation between `a` and `b` by `t`. -/
def lerp (a b t : ℝ) : ℝ := a * (1 - t) + b * t

/-- `utils.clamp`: clamp `x` into `[lo, hi]` (Python `max(lo, min(hi, x))`). -/
def clamp (x lo hi : ℝ) : ℝ := max lo (min hi x)

/-- The `Params` dataclass of lampshade/params.py.  Float-annotated fields
are reals, int-annotated fields are integers; defaults as in the source. -/
@[ext]
structure Params where
  mountCylinderOuterDiameter : ℝ := 13.0
  mountCylinderHeight : ℝ := 5.5
  transitionHeight : ℝ := 15.0
  transitionWidth : ℝ := 0.0
  overhangAngle : ℤ := 30
  topDiameterMin : ℤ := 16
  topDiameterMax : ℤ := 100
  middleDiameterMin : ℤ := 30
  middleDiameterMax : ℤ := 120
  bottomDiameterMin : ℤ := 30
  bottomDiameterMax : ℤ := 120
  overhangAngleMin : ℤ := 30
  overhangAngleMax : ℤ := 80
  cylinderHeightMin : ℤ := 50
  cylinderHeightMax : ℤ := 120
  featureCountMin : ℤ := 1
  featureCountMax : ℤ := 10
  detailMin : ℤ := 25
  detailMax : ℤ := 300
  featureDepthMin : ℝ := 0.0
  featureDepthMax : ℝ := 4.0
  topDiameter : ℤ := 30
  middleDiameter : ℤ := 70
  bottomDiameter : ℤ := 60
  cylinderHeight : ℤ := 80
  featureCount : ℤ := 6
  featureDepth : ℝ := 2.0
  designMode : ℤ := 1
  interpolation : ℤ := 0
  detail : ℤ := 120

/-- `Params.update_transition`: recompute `transitionWidth` and then
`transitionHeight` from it (`math.radians x = x * pi / 180`). -/
def Params.update_transition (P : Params) : Params :=
  let tw : ℝ := ((P.topDiameter : ℝ) - P.mountCylinderOuterDiameter) / 2
  { P with
      transitionWidth := tw,
      transitionHeight := max 0 tw * Real.tan ((P.overhangAngle : ℝ) * Real.pi / 180) }

/-- `Params.update_feature_depth_max`: shrink `featureDepthMax` so the
pattern cannot carve below the mount radius, then clamp `featureDepth`. -/
def Params.update_feature_depth_max (P : Params) : Params :=
  let outerRadius : ℝ := P.mountCylinderOuterDiameter / 2
  let smallestMainCylinderRadius : ℝ :=
    min ((P.topDiameter : ℝ) + P.transitionWidth)
      (min (P.bottomDiameter : ℝ) (P.middleDiameter : ℝ)) / 2
  let fdMax : ℝ := min (max 0 (smallestMainCylinderRadius - outerRadius)) P.featureDepthMax
  { P with
      featureDepthMax := fdMax,
      featureDepth := clamp P.featureDepth P.featureDepthMin (max P.featureDepthMin fdMax) }

/-- `geometry.quadratic_profile`: radial profile at height parameter `u`.
Interpolation mode 1 = Lagrange, 2 = piecewise linear, else Bezier. -/
def quadratic_profile (u : ℝ) (P : Params) : ℝ :=
  if P.interpolation = 1 then
    2 * (u - 1) * (u - 0.5) * ((P.topDiameter : ℝ) / 2)
      - 4 * (u - 1) * u * ((P.middleDiameter : ℝ) / 2)
      + 2 * u * (u - 0.5) * ((P.bottomDiameter : ℝ) / 2)
  else if P.interpolation = 2 then
    if u ≤ 0.5 then
      lerp ((P.topDiameter : ℝ) / 2) ((P.middleDiameter : ℝ) / 2) (u / 0.5)
    else
      lerp ((P.middleDiameter : ℝ) / 2) ((P.bottomDiameter : ℝ) / 2) ((u - 0.5) / 0.5)
  else
    (1 - u) * (1 - u) * ((P.topDiameter : ℝ) / 2)
      + 2 * (1 - u) * u * ((P.middleDiameter : ℝ) / 2)
      + u * u * ((P.bottomDiameter : ℝ) / 2)

/-- `geometry.design_offset`: procedural radial offset; mode 0 (or any
value outside 1..12) disables patterns. -/
def design_offset (u v : ℝ) (P : Params) : ℝ :=
  if P.designMode ≤ 0 then 0
  else
    let fd := P.featureDepth
    let fc : ℝ := (P.featureCount : ℝ)
    let m := P.designMode
    if m = 1 then fd * Real.sin (fc * Real.pi * u) * Real.cos (fc * v)
    else if m = 2 then fd * Real.sin (fc * (v + Real.pi * u))
    else if m = 3 then fd * |Real.sin (fc * v)|
    else if m = 4 then fd * (|Real.sin (fc * Real.pi * u)| + |Real.sin (fc * v)|)
    else if m = 5 then fd * Real.sin (fc * (v + u)) * Real.sin (fc * (v - u))
    else if m = 6 then fd * Real.sin (fc * (v + 0.5 * Real.sin (2 * Real.pi * u)))
    else if m = 7 then fd * (|Real.sin (fc * v)| - |Real.sin (fc * Real.pi * u)|)
    else if m = 8 then fd * 0.5 * (Real.sin (fc * v) + Real.sin ((fc + 1) * v + 2 * Real.pi * u))
    else if m = 9 then fd * 0.7 * Real.cos (fc * 2 * Real.pi * u)
    else if m = 10 then
      let phase := fc * u
      fd * 0.8 * |2 * (phase - ((Int.floor (phase + 0.5) : ℤ) : ℝ))|
    else if m = 11 then fd * 0.9 * |Real.sin (fc * Real.pi * u + v)|
    else if m = 12 then
      let d := Real.cos (fc * 2 * Real.pi * u + 2 * v) + 0.7 * Real.sin (fc * v + u * 2.7)
      fd * 0.5 * d
    else 0

/-- A 3-D point `(x, y, z)` in viewer coordinates. -/
abbrev Point := ℝ × ℝ × ℝ

/-- `geometry.compute_outer_vertex`: point on the decorated outer surface. -/
def compute_outer_vertex (u v : ℝ) (P : Params) : Point :=
  let baseR := quadratic_profile u P
  let offset := design_offset u v P
  let r := max 0 (baseR + offset)
  (r * Real.cos v,
   lerp ((P.cylinderHeight : ℝ) / 2) (-((P.cylinderHeight : ℝ) / 2)) u,
   r * Real.sin v)

/-- The mutable vertex/face buffers of `build_mesh_arrays`, made explicit. -/
structure MeshState where
  vertices : List Point
  faces : List (ℕ × ℕ × ℕ)

/-- `add_vertex` inside `build_mesh_arrays`: append a point, return the new
state together with the index of the appended point (`len(vertices) - 1`). -/
def add_vertex (s : MeshState) (p : Point) : MeshState × ℕ :=
  (⟨s.vertices ++ [p], s.faces⟩, s.vertices.length)

/-- `add_tri` inside `build_mesh_arrays`: append one index triple. -/
def add_tri (s : MeshState) (a b c : ℕ) : MeshState :=
  ⟨s.vertices, s.faces ++ [(a, b, c)]⟩

/-- `v_at(j, n) = (j / n) * 2π`, the angular sample points. -/
def v_at (j n : ℕ) : ℝ := ((j : ℝ) / (n : ℝ)) * (2 * Real.pi)

/-- One `(i, j)` cell of region 1 (main outer surface quilt): four fresh
vertices and two triangles. -/
def shellCell (P : Params) (d i j : ℕ) (s : MeshState) : MeshState :=
  let u1 : ℝ := (i : ℝ) / (d : ℝ)
  let u2 : ℝ := ((i : ℝ) + 1) / (d : ℝ)
  let v1 := v_at j d
  let v2 := v_at (j + 1) d
  let r1 := add_vertex s (compute_outer_vertex u1 v1 P)
  let r2 := add_vertex r1.1 (compute_outer_vertex u2 v1 P)
  let r3 := add_vertex r2.1 (compute_outer_vertex u2 v2 P)
  let r4 := add_vertex r3.1 (compute_outer_vertex u1 v2 P)
  add_tri (add_tri r4.1 r1.2 r2.2 r3.2) r1.2 r3.2 r4.2

/-- Region 1: the `detail × detail` outer-shell double loop. -/
def shellRegion (P : Params) (d : ℕ) (s : MeshState) : MeshState :=
  (List.range d).foldl
    (fun t i => (List.range d).foldl (fun t2 j => shellCell P d i j t2) t) s

/-- Region 1b: bottom cap — one center vertex, then a fan of `detail`
triangles with two fresh rim vertices per step. -/
def bottomCapRegion (P : Params) (d : ℕ) (s : MeshState) : MeshState :=
  let rc := add_vertex s (0, -((P.cylinderHeight : ℝ) / 2), 0)
  (List.range d).foldl
    (fun t j =>
      let r1 := add_vertex t (compute_outer_vertex 1 (v_at j d) P)
      let r2 := add_vertex r1.1 (compute_outer_vertex 1 (v_at (j + 1) d) P)
      add_tri r2.1 rc.2 r1.2 r2.2) rc.1

/-- One `(i, j)` cell of region 2 (transition skirt): x/z are blended
linearly between the decorated top rim and the plain mount circle. -/
def transitionCell (P : Params) (d i j : ℕ) (s : MeshState) : MeshState :=
  let transBottomY : ℝ := (P.cylinderHeight : ℝ) / 2
  let transTopY : ℝ := transBottomY + P.transitionHeight
  let topR : ℝ := P.mountCylinderOuterDiameter / 2
  let t1 : ℝ := (i : ℝ) / (d : ℝ)
  let t2 : ℝ := ((i : ℝ) + 1) / (d : ℝ)
  let y1 := lerp transBottomY transTopY t1
  let y2 := lerp transBottomY transTopY t2
  let a1 := v_at j d
  let a2 := v_at (j + 1) d
  let bottomV1 := compute_outer_vertex 0 a1 P
  let bottomV2 := compute_outer_vertex 0 a2 P
  let topV1 : Point := (topR * Real.cos a1, transTopY, topR * Real.sin a1)
  let topV2 : Point := (topR * Real.cos a2, transTopY, topR * Real.sin a2)
  let x1 := lerp bottomV1.1 topV1.1 t1
  let z1 := lerp bottomV1.2.2 topV1.2.2 t1
  let x2 := lerp bottomV1.1 topV1.1 t2
  let z2 := lerp bottomV1.2.2 topV1.2.2 t2
  let x3 := lerp bottomV2.1 topV2.1 t2
  let z3 := lerp bottomV2.2.2 topV2.2.2 t2
  let x4 := lerp bottomV2.1 topV2.1 t1
  let z4 := lerp bottomV2.2.2 topV2.2.2 t1
  let r1 := add_vertex s (x1, y1, z1)
  let r2 := add_vertex r1.1 (x2, y2, z2)
  let r3 := add_vertex r2.1 (x3, y2, z3)
  let r4 := add_vertex r3.1 (x4, y1, z4)
  add_tri (add_tri r4.1 r1.2 r2.2 r3.2) r1.2 r3.2 r4.2

/-- Region 2: the `detail × detail` transition double loop. -/
def transitionRegion (P : Params) (d : ℕ) (s : MeshState) : MeshState :=
  (List.range d).foldl
    (fun t i => (List.range d).foldl (fun t2 j => transitionCell P d i j t2) t) s

/-- Region 3 side wall: `detail` strips of the mount cylinder. -/
def mountSideRegion (P : Params) (d : ℕ) (s : MeshState) : MeshState :=
  let cylBottomY : ℝ := (P.cylinderHeight : ℝ) / 2 + P.transitionHeight
  let cylTopY : ℝ := cylBottomY + P.mountCylinderHeight
  let rOut : ℝ := P.mountCylinderOuterDiameter / 2
  (List.range d).foldl
    (fun t i =>
      let a1 := v_at i d
      let a2 := v_at (i + 1) d
      let r1 := add_vertex t (rOut * Real.cos a1, cylBottomY, rOut * Real.sin a1)
      let r2 := add_vertex r1.1 (rOut * Real.cos a1, cylTopY, rOut * Real.sin a1)
      let r3 := add_vertex r2.1 (rOut * Real.cos a2, cylTopY, rOut * Real.sin a2)
      let r4 := add_vertex r3.1 (rOut * Real.cos a2, cylBottomY, rOut * Real.sin a2)
      add_tri (add_tri r4.1 r1.2 r2.2 r3.2) r1.2 r3.2 r4.2) s

/-- Region 3 top cap: apex vertex plus a fan wound opposite to the bottom
cap (`add_tri center p2 p1`). -/
def topCapRegion (P : Params) (d : ℕ) (s : MeshState) : MeshState :=
  let cylTopY : ℝ := (P.cylinderHeight : ℝ) / 2 + P.transitionHeight + P.mountCylinderHeight
  let rOut : ℝ := P.mountCylinderOuterDiameter / 2
  let rc := add_vertex s (0, cylTopY, 0)
  (List.range d).foldl
    (fun t j =>
      let a1 := v_at j d
      let a2 := v_at (j + 1) d
      let r1 := add_vertex t (rOut * Real.cos a1, cylTopY, rOut * Real.sin a1)
      let r2 := add_vertex r1.1 (rOut * Real.cos a2, cylTopY, rOut * Real.sin a2)
      add_tri r2.1 rc.2 r2.2 r1.2) rc.1

/-- `geometry.build_mesh_arrays`: refresh the derived fields (transition
first, then feature-depth max), then emit the five regions in order.
Returns the mutated `Params` together with the final buffers. -/
def build_mesh_arrays (P0 : Params) : Params × MeshState :=
  let P := (P0.update_transition).update_feature_depth_max
  let d := P.detail.toNat
  (P, topCapRegion P d
        (mountSideRegion P d
          (transitionRegion P d
            (bottomCapRegion P d
              (shellRegion P d ⟨[], []⟩)))))

/-- The default `Params` instance (all dataclass defaults). -/
def defaultParams : Params := {}

/-- Defaults with a pathological feature-depth floor (used to probe the
safety invariant). -/
def paramsDeepMin : Params := { featureDepthMin := 100, featureDepth := 100 }

/-- Defaults with design mode 4 and a unit feature depth/count. -/
def paramsMode4 : Params := { designMode := 4, featureCount := 1, featureDepth := 1 }

/-- Defaults at mesh detail 1. -/
def paramsDetail1 : Params := { detail := 1 }

/-- Defaults at mesh detail 0. -/
def paramsDetail0 : Params := { detail := 0 }

/-- Defaults with patterns disabled. -/
def paramsNoPattern : Params := { designMode := 0 }

/-- Patterns disabled and a negative top diameter. -/
def paramsNegTop : Params := { topDiameter := -2, designMode := 0 }

/-- Every face triple's three indices lie below the vertex count. -/
def ValidState (s : MeshState) : Prop :=
  ∀ t ∈ s.faces,
    t.1 < s.vertices.length ∧ t.2.1 < s.vertices.length ∧ t.2.2 < s.vertices.length

end

section CountLemmas

theorem foldl_vertices_length (f : MeshState → ℕ → MeshState) (kv : ℕ)
    (h : ∀ s j, ((f s j).vertices).length = s.vertices.length + kv) :
    ∀ (l : List ℕ) (s : MeshState),
      ((l.foldl f s).vertices).length = s.vertices.length + l.length * kv := by
  intro l
  induction l with
  | nil => intro s; simp
  | cons a t ih =>
      intro s
      simp only [List.foldl_cons, List.length_cons]
      rw [ih, h]
      ring

theorem foldl_faces_length (f : MeshState → ℕ → MeshState) (kf : ℕ)
    (h : ∀ s j, ((f s j).faces).length = s.faces.length + kf) :
    ∀ (l : List ℕ) (s : MeshState),
      ((l.foldl f s).faces).length = s.faces.length + l.length * kf := by
  intro l
  induction l with
  | nil => intro s; simp
  | cons a t ih =>
      intro s
      simp only [List.foldl_cons, List.length_cons]
      rw [ih, h]
      ring

theorem shellCell_vertices_length (P : Params) (d i j : ℕ) (s : MeshState) :
    ((shellCell P d i j s).vertices).length = s.vertices.length + 4 := by
  simp [shellCell, add_vertex, add_tri]

theorem shellCell_faces_length (P : Params) (d i j : ℕ) (s : MeshState) :
    ((shellCell P d i j s).faces).length = s.faces.length + 2 := by
  simp [shellCell, add_vertex, add_tri]

theorem shellRegion_vertices_length (P : Params) (d : ℕ) (s : MeshState) :
    ((shellRegion P d s).vertices).length = s.vertices.length + 4 * d ^ 2 := by
  unfold shellRegion
  rw [foldl_vertices_length _ (d * 4)
    (fun s i => by
      rw [foldl_vertices_length (fun t2 j => shellCell P d i j t2) 4
        (fun s j => shellCell_vertices_length P d i j s)]
      simp)]
  simp [List.length_range]
  ring

theorem shellRegion_faces_length (P : Params) (d : ℕ) (s : MeshState) :
    ((shellRegion P d s).faces).length = s.faces.length + 2 * d ^ 2 := by
  unfold shellRegion
  rw [foldl_faces_length _ (d * 2)
    (fun s i => by
      rw [foldl_faces_length (fun t2 j => shellCell P d i j t2) 2
        (fun s j => shellCell_faces_length P d i j s)]
      simp)]
  simp [List.length_range]
  ring

theorem bottomCapRegion_vertices_length (P : Params) (d : ℕ) (s : MeshState) :
    ((bottomCapRegion P d s).vertices).length = s.vertices.length + (2 * d + 1) := by
  unfold bottomCapRegion
  rw [foldl_vertices_length _ 2 (fun s j => by simp [add_vertex, add_tri])]
  simp [add_vertex, List.length_range]
  ring

theorem bottomCapRegion_faces_length (P : Params) (d : ℕ) (s : MeshState) :
    ((bottomCapRegion P d s).faces).length = s.faces.length + d := by
  unfold bottomCapRegion
  rw [foldl_faces_length _ 1 (fun s j => by simp [add_vertex, add_tri])]
  simp [add_vertex, List.length_range]

theorem transitionCell_vertices_length (P : Params) (d i j : ℕ) (s : MeshState) :
    ((transitionCell P d i j s).vertices).length = s.vertices.length + 4 := by
  simp [transitionCell, add_vertex, add_tri]

theorem transitionCell_faces_length (P : Params) (d i j : ℕ) (s : MeshState) :
    ((transitionCell P d i j s).faces).length = s.faces.length + 2 := by
  simp [transitionCell, add_vertex, add_tri]

theorem transitionRegion_vertices_length (P : Params) (d : ℕ) (s : MeshState) :
    ((transitionRegion P d s).vertices).length = s.vertices.length + 4 * d ^ 2 := by
  unfold transitionRegion
  rw [foldl_vertices_length _ (d * 4)
    (fun s i => by
      rw [foldl_vertices_length (fun t2 j => transitionCell P d i j t2) 4
        (fun s j => transitionCell_vertices_length P d i j s)]
      simp)]
  simp [List.length_range]
  ring

theorem transitionRegion_faces_length (P : Params) (d : ℕ) (s : MeshState) :
    ((transitionRegion P d s).faces).length = s.faces.length + 2 * d ^ 2 := by
  unfold transitionRegion
  rw [foldl_faces_length _ (d * 2)
    (fun s i => by
      rw [foldl_faces_length (fun t2 j => transitionCell P d i j t2) 2
        (fun s j => transitionCell_faces_length P d i j s)]
      simp)]
  simp [List.length_range]
  ring

theorem mountSideRegion_vertices_length (P : Params) (d : ℕ) (s : MeshState) :
    ((mountSideRegion P d s).vertices).length = s.vertices.length + 4 * d := by
  unfold mountSideRegion
  rw [foldl_vertices_length _ 4 (fun s i => by simp [add_vertex, add_tri])]
  simp [List.length_range]
  ring

theorem mountSideRegion_faces_length (P : Params) (d : ℕ) (s : MeshState) :
    ((mountSideRegion P d s).faces).length = s.faces.length + 2 * d := by
  unfold mountSideRegion
  rw [foldl_faces_length _ 2 (fun s i => by simp [add_vertex, add_tri])]
  simp [List.length_range]
  ring

theorem topCapRegion_vertices_length (P : Params) (d : ℕ) (s : MeshState) :
    ((topCapRegion P d s).vertices).length = s.vertices.length + (2 * d + 1) := by
  unfold topCapRegion
  rw [foldl_vertices_length _ 2 (fun s j => by simp [add_vertex, add_tri])]
  simp [add_vertex, List.length_range]
  ring

theorem topCapRegion_faces_length (P : Params) (d : ℕ) (s : MeshState) :
    ((topCapRegion P d s).faces).length = s.faces.length + d := by
  unfold topCapRegion
  rw [foldl_faces_length _ 1 (fun s j => by simp [add_vertex, add_tri])]
  simp [add_vertex, List.length_range]

end CountLemmas

section ValidityLemmas

theorem add_vertex_valid (s : MeshState) (p : Point) (hs : ValidState s) :
    ValidState (add_vertex s p).1 := by
  intro t ht
  simp only [add_vertex] at ht ⊢
  obtain ⟨h1, h2, h3⟩ := hs t ht
  simp only [List.length_append, List.length_singleton]
  omega

theorem foldl_preserves (Q : MeshState → Prop) (f : MeshState → ℕ → MeshState)
    (h : ∀ s j, Q s → Q (f s j)) :
    ∀ (l : List ℕ) (s : MeshState), Q s → Q (l.foldl f s) := by
  intro l
  induction l with
  | nil => intro s hs; simpa using hs
  | cons a t ih =>
      intro s hs
      simp only [List.foldl_cons]
      exact ih _ (h s a hs)

theorem foldl_valid (f : MeshState → ℕ → MeshState)
    (h : ∀ s j, ValidState s → ValidState (f s j)) :
    ∀ (l : List ℕ) (s : MeshState), ValidState s → ValidState (l.foldl f s) :=
  foldl_preserves ValidState f h

theorem shellCell_valid (P : Params) (d i j : ℕ) (s : MeshState)
    (hs : ValidState s) : ValidState (shellCell P d i j s) := by
  intro t ht
  simp only [shellCell, add_vertex, add_tri, List.mem_append, List.mem_singleton] at ht
  simp only [shellCell, add_vertex, add_tri, List.length_append, List.length_singleton]
  rcases ht with (ht | rfl) | rfl
  · obtain ⟨h1, h2, h3⟩ := hs t ht
    refine ⟨?_, ?_, ?_⟩ <;> omega
  · refine ⟨?_, ?_, ?_⟩ <;> simp <;> omega
  · refine ⟨?_, ?_, ?_⟩ <;> simp <;> omega

theorem transitionCell_valid (P : Params) (d i j : ℕ) (s : MeshState)
    (hs : ValidState s) : ValidState (transitionCell P d i j s) := by
  intro t ht
  simp only [transitionCell, add_vertex, add_tri, List.mem_append, List.mem_singleton] at ht
  simp only [transitionCell, add_vertex, add_tri, List.length_append, List.length_singleton]
  rcases ht with (ht | rfl) | rfl
  · obtain ⟨h1, h2, h3⟩ := hs t ht
    refine ⟨?_, ?_, ?_⟩ <;> omega
  · refine ⟨?_, ?_, ?_⟩ <;> simp <;> omega
  · refine ⟨?_, ?_, ?_⟩ <;> simp <;> omega

theorem shellRegion_valid (P : Params) (d : ℕ) (s : MeshState)
    (hs : ValidState s) : ValidState (shellRegion P d s) := by
  unfold shellRegion
  exact foldl_valid _
    (fun s i hsi => foldl_valid _ (fun s2 j hs2 => shellCell_valid P d i j s2 hs2) _ _ hsi)
    _ _ hs

theorem bottomCapRegion_valid (P : Params) (d : ℕ) (s : MeshState)
    (hs : ValidState s) : ValidState (bottomCapRegion P d s) := by
  unfold bottomCapRegion
  refine (foldl_preserves
    (fun t2 => ValidState t2 ∧ s.vertices.length < t2.vertices.length)
    _ ?step (List.range d) _ ?base).1
  case step =>
    intro t2 j ht2
    obtain ⟨hv, hlt⟩ := ht2
    refine ⟨?_, ?_⟩
    · intro t ht
      simp only [add_vertex, add_tri, List.mem_append, List.mem_singleton] at ht
      simp only [add_vertex, add_tri, List.length_append, List.length_singleton]
      rcases ht with ht | rfl
      · obtain ⟨h1, h2, h3⟩ := hv t ht
        refine ⟨?_, ?_, ?_⟩ <;> omega
      · refine ⟨?_, ?_, ?_⟩ <;> simp [add_vertex] <;> omega
    · simp only [add_vertex, add_tri, List.length_append, List.length_singleton]
      omega
  case base =>
    refine ⟨add_vertex_valid s _ hs, ?_⟩
    simp [add_vertex]

theorem transitionRegion_valid (P : Params) (d : ℕ) (s : MeshState)
    (hs : ValidState s) : ValidState (transitionRegion P d s) := by
  unfold transitionRegion
  exact foldl_valid _
    (fun s i hsi => foldl_valid _ (fun s2 j hs2 => transitionCell_valid P d i j s2 hs2) _ _ hsi)
    _ _ hs

theorem mountSideRegion_valid (P : Params) (d : ℕ) (s : MeshState)
    (hs : ValidState s) : ValidState (mountSideRegion P d s) := by
  unfold mountSideRegion
  apply foldl_valid _ _ _ _ hs
  intro t2 i ht2
  intro t ht
  simp only [add_vertex, add_tri, List.mem_append, List.mem_singleton] at ht
  simp only [add_vertex, add_tri, List.length_append, List.length_singleton]
  rcases ht with (ht | rfl) | rfl
  · obtain ⟨h1, h2, h3⟩ := ht2 t ht
    refine ⟨?_, ?_, ?_⟩ <;> omega
  · refine ⟨?_, ?_, ?_⟩ <;> simp <;> omega
  · refine ⟨?_, ?_, ?_⟩ <;> simp <;> omega

theorem topCapRegion_valid (P : Params) (d : ℕ) (s : MeshState)
    (hs : ValidState s) : ValidState (topCapRegion P d s) := by
  unfold topCapRegion
  refine (foldl_preserves
    (fun t2 => ValidState t2 ∧ s.vertices.length < t2.vertices.length)
    _ ?step (List.range d) _ ?base).1
  case step =>
    intro t2 j ht2
    obtain ⟨hv, hlt⟩ := ht2
    refine ⟨?_, ?_⟩
    · intro t ht
      simp only [add_vertex, add_tri, List.mem_append, List.mem_singleton] at ht
      simp only [add_vertex, add_tri, List.length_append, List.length_singleton]
      rcases ht with ht | rfl
      · obtain ⟨h1, h2, h3⟩ := hv t ht
        refine ⟨?_, ?_, ?_⟩ <;> omega
      · refine ⟨?_, ?_, ?_⟩ <;> simp [add_vertex] <;> omega
    · simp only [add_vertex, add_tri, List.length_append, List.length_singleton]
      omega
  case base =>
    refine ⟨add_vertex_valid s _ hs, ?_⟩
    simp [add_vertex]

theorem build_mesh_arrays_valid (P : Params) :
    ValidState (build_mesh_arrays P).2 := by
  unfold build_mesh_arrays
  apply topCapRegion_valid
  apply mountSideRegion_valid
  apply transitionRegion_valid
  apply bottomCapRegion_valid
  apply shellRegion_valid
  intro t ht
  simp at ht

end ValidityLemmas

section DeriveLemmas

theorem clamp_clamp (x lo hi : ℝ) (h : lo ≤ hi) :
    clamp (clamp x lo hi) lo hi = clamp x lo hi := by
  unfold clamp
  have h1 : lo ≤ max lo (min hi x) := le_max_left _ _
  have h2 : max lo (min hi x) ≤ hi := max_le h (min_le_left _ _)
  rw [min_eq_right h2, max_eq_right h1]

theorem clamp_clamp_max (x lo a : ℝ) :
    clamp (clamp x lo (max lo a)) lo (max lo a) = clamp x lo (max lo a) :=
  clamp_clamp _ _ _ (le_max_left _ _)

theorem min_min_same (a b : ℝ) : min a (min a b) = min a b := by
  rw [← min_assoc, min_self]

theorem update_transition_stable (P : Params) :
    ((P.update_transition).update_feature_depth_max).update_transition
      = (P.update_transition).update_feature_depth_max := by
  cases P
  rfl

theorem update_feature_depth_max_idem (Q : Params) :
    (Q.update_feature_depth_max).update_feature_depth_max
      = Q.update_feature_depth_max := by
  cases Q
  unfold Params.update_feature_depth_max
  ext
  all_goals dsimp only
  all_goals rw [min_min_same]
  all_goals rw [clamp_clamp_max]

theorem derive_idem (P : Params) :
    ((((P.update_transition).update_feature_depth_max).update_transition).update_feature_depth_max)
      = (P.update_transition).update_feature_depth_max := by
  rw [update_transition_stable, update_feature_depth_max_idem]

end DeriveLemmas

section PatternBoundHelpers

theorem abs_mul_le_two (fd g : ℝ) (h : |g| ≤ 2) : |fd * g| ≤ 2 * |fd| := by
  rw [abs_mul, mul_comm]
  exact mul_le_mul_of_nonneg_right h (abs_nonneg fd)

theorem abs_sin_le_two (a : ℝ) : |Real.sin a| ≤ 2 :=
  (Real.abs_sin_le_one a).trans (by norm_num)

theorem abs_abs_sin_le_two (a : ℝ) : |(|Real.sin a|)| ≤ 2 := by
  rw [abs_abs]; exact abs_sin_le_two a

theorem abs_sin_cos_le_two (a b : ℝ) : |Real.sin a * Real.cos b| ≤ 2 := by
  rw [abs_mul]
  nlinarith [Real.abs_sin_le_one a, Real.abs_cos_le_one b,
    abs_nonneg (Real.sin a), abs_nonneg (Real.cos b)]

theorem abs_sin_mul_sin_le_two (a b : ℝ) : |Real.sin a * Real.sin b| ≤ 2 := by
  rw [abs_mul]
  nlinarith [Real.abs_sin_le_one a, Real.abs_sin_le_one b,
    abs_nonneg (Real.sin a), abs_nonneg (Real.sin b)]

theorem abs_add_abs_sin_le_two (a b : ℝ) : |(|Real.sin a| + |Real.sin b|)| ≤ 2 := by
  rw [abs_of_nonneg (by positivity)]
  have ha := Real.abs_sin_le_one a
  have hb := Real.abs_sin_le_one b
  linarith

theorem abs_sub_abs_sin_le_two (a b : ℝ) : |(|Real.sin a| - |Real.sin b|)| ≤ 2 := by
  rw [abs_le]
  constructor <;>
    nlinarith [Real.abs_sin_le_one a, Real.abs_sin_le_one b,
      abs_nonneg (Real.sin a), abs_nonneg (Real.sin b)]

theorem abs_half_add_sin_le_two (a b : ℝ) : |0.5 * (Real.sin a + Real.sin b)| ≤ 2 := by
  have hs : |Real.sin a + Real.sin b| ≤ 2 := by
    have := abs_add (Real.sin a) (Real.sin b)
    have ha := Real.abs_sin_le_one a
    have hb := Real.abs_sin_le_one b
    linarith
  rw [abs_mul, abs_of_nonneg (by norm_num : (0:ℝ) ≤ 0.5)]
  nlinarith [abs_nonneg (Real.sin a + Real.sin b)]

theorem abs_point_seven_cos_le_two (a : ℝ) : |0.7 * Real.cos a| ≤ 2 := by
  rw [abs_mul, abs_of_nonneg (by norm_num : (0:ℝ) ≤ 0.7)]
  nlinarith [Real.abs_cos_le_one a, abs_nonneg (Real.cos a)]

theorem abs_two_mul_sub_floor (x : ℝ) :
    |2 * (x - ((Int.floor (x + 0.5) : ℤ) : ℝ))| ≤ 1 := by
  have h1 : ((Int.floor (x + 0.5) : ℤ) : ℝ) ≤ x + 0.5 := Int.floor_le _
  have h2 : x + 0.5 < ((Int.floor (x + 0.5) : ℤ) : ℝ) + 1 := Int.lt_floor_add_one _
  rw [abs_le]
  constructor <;> linarith

theorem abs_tri_wave_le_two (x : ℝ) :
    |0.8 * (|2 * (x - ((Int.floor (x + 0.5) : ℤ) : ℝ))|)| ≤ 2 := by
  rw [abs_mul, abs_abs, abs_of_nonneg (by norm_num : (0:ℝ) ≤ 0.8)]
  nlinarith [abs_two_mul_sub_floor x,
    abs_nonneg (2 * (x - ((Int.floor (x + 0.5) : ℤ) : ℝ)))]

theorem abs_point_nine_abs_sin_le_two (a : ℝ) : |0.9 * (|Real.sin a|)| ≤ 2 := by
  rw [abs_mul, abs_abs, abs_of_nonneg (by norm_num : (0:ℝ) ≤ 0.9)]
  nlinarith [Real.abs_sin_le_one a, abs_nonneg (Real.sin a)]

theorem abs_half_mix_le_two (a b : ℝ) :
    |0.5 * (Real.cos a + 0.7 * Real.sin b)| ≤ 2 := by
  have hm : |Real.cos a + 0.7 * Real.sin b| ≤ 2 := by
    have h1 := abs_add (Real.cos a) (0.7 * Real.sin b)
    have h2 : |0.7 * Real.sin b| ≤ 0.7 := by
      rw [abs_mul, abs_of_nonneg (by norm_num : (0:ℝ) ≤ 0.7)]
      nlinarith [Real.abs_sin_le_one b, abs_nonneg (Real.sin b)]
    have h3 := Real.abs_cos_le_one a
    linarith
  rw [abs_mul, abs_of_nonneg (by norm_num : (0:ℝ) ≤ 0.5)]
  nlinarith [abs_nonneg (Real.cos a + 0.7 * Real.sin b)]

end PatternBoundHelpers

/-- C5: for every Parameters value and every interpolation mode (the mode
dispatch is internal to `quadratic_profile`), the radial profile equals
`topDiameter / 2` at `u = 0` and `bottomDiameter / 2` at `u = 1`; in the
real-number model the equalities are exact. -/
theorem profile_anchors (P : Params) :
    quadratic_profile 0 P = (P.topDiameter : ℝ) / 2 ∧
    quadratic_profile 1 P = (P.bottomDiameter : ℝ) / 2 := by
  unfold quadratic_profile
  constructor
  · split_ifs with h1 h2 h3
    · ring
    · norm_num [lerp]
    · exact absurd (by norm_num) h3
    · ring
  · split_ifs with h1 h2 h3
    · ring
    · exact absurd h3 (by norm_num)
    · norm_num [lerp]
    · ring

/-- C7: after `update_transition`, `transitionWidth` equals
`(topDiameter - mountCylinderOuterDiameter) / 2` (possibly negative) and
`transitionHeight` equals `max 0 transitionWidth * tan(overhangAngle · π/180)`. -/
theorem update_transition_spec (P : Params) :
    (P.update_transition).transitionWidth
        = ((P.topDiameter : ℝ) - P.mountCylinderOuterDiameter) / 2 ∧
    (P.update_transition).transitionHeight
        = max 0 (((P.topDiameter : ℝ) - P.mountCylinderOuterDiameter) / 2)
            * Real.tan ((P.overhangAngle : ℝ) * Real.pi / 180) :=
  ⟨rfl, rfl⟩

/-- C8: `build_mesh_arrays` re-runs both derive steps itself, so the
vertex/triangle buffers for `P` coincide with the buffers for a copy of `P`
on which `update_transition` and then `update_feature_depth_max` were
already run: the derivation is idempotent and a caller cannot forget it. -/
theorem build_mesh_derive_idempotent (P : Params) :
    (build_mesh_arrays ((P.update_transition).update_feature_depth_max)).2
      = (build_mesh_arrays P).2 := by
  simp only [build_mesh_arrays]
  rw [derive_idem]

/-- C10: `build_mesh_arrays` mutates only the four derived fields
(`transitionWidth`, `transitionHeight`, `featureDepthMax`, `featureDepth`);
all twenty-six remaining fields of the returned Params are unchanged. -/
theorem build_mesh_frame (P : Params) :
    ((build_mesh_arrays P).1).mountCylinderOuterDiameter = P.mountCylinderOuterDiameter ∧
    ((build_mesh_arrays P).1).mountCylinderHeight = P.mountCylinderHeight ∧
    ((build_mesh_arrays P).1).overhangAngle = P.overhangAngle ∧
    ((build_mesh_arrays P).1).topDiameterMin = P.topDiameterMin ∧
    ((build_mesh_arrays P).1).topDiameterMax = P.topDiameterMax ∧
    ((build_mesh_arrays P).1).middleDiameterMin = P.middleDiameterMin ∧
    ((build_mesh_arrays P).1).middleDiameterMax = P.middleDiameterMax ∧
    ((build_mesh_arrays P).1).bottomDiameterMin = P.bottomDiameterMin ∧
    ((build_mesh_arrays P).1).bottomDiameterMax = P.bottomDiameterMax ∧
    ((build_mesh_arrays P).1).overhangAngleMin = P.overhangAngleMin ∧
    ((build_mesh_arrays P).1).overhangAngleMax = P.overhangAngleMax ∧
    ((build_mesh_arrays P).1).cylinderHeightMin = P.cylinderHeightMin ∧
    ((build_mesh_arrays P).1).cylinderHeightMax = P.cylinderHeightMax ∧
    ((build_mesh_arrays P).1).featureCountMin = P.featureCountMin ∧
    ((build_mesh_arrays P).1).featureCountMax = P.featureCountMax ∧
    ((build_mesh_arrays P).1).detailMin = P.detailMin ∧
    ((build_mesh_arrays P).1).detailMax = P.detailMax ∧
    ((build_mesh_arrays P).1).featureDepthMin = P.featureDepthMin ∧
    ((build_mesh_arrays P).1).topDiameter = P.topDiameter ∧
    ((build_mesh_arrays P).1).middleDiameter = P.middleDiameter ∧
    ((build_mesh_arrays P).1).bottomDiameter = P.bottomDiameter ∧
    ((build_mesh_arrays P).1).cylinderHeight = P.cylinderHeight ∧
    ((build_mesh_arrays P).1).featureCount = P.featureCount ∧
    ((build_mesh_arrays P).1).designMode = P.designMode ∧
    ((build_mesh_arrays P).1).interpolation = P.interpolation ∧
    ((build_mesh_arrays P).1).detail = P.detail :=
  ⟨rfl, rfl, rfl, rfl, rfl, rfl, rfl, rfl, rfl, rfl, rfl, rfl, rfl,
   rfl, rfl, rfl, rfl, rfl, rfl, rfl, rfl, rfl, rfl, rfl, rfl, rfl⟩

theorem clamp_le_bound (x lo b c : ℝ) (h0 : 0 ≤ c) (hlo : lo ≤ c) :
    clamp x lo (max lo (min (max 0 c) b)) ≤ c := by
  unfold clamp
  have h1 : min (max 0 c) b ≤ c := (min_le_left _ _).trans (le_of_eq (max_eq_right h0))
  have h2 : max lo (min (max 0 c) b) ≤ c := max_le hlo h1
  exact max_le hlo ((min_le_left _ _).trans h2)

/-- C1 (amended): whenever the mount radius fits under the minimal main
radius AND the feature-depth floor `featureDepthMin` fits in the remaining
annulus, the featureDepth clamped by `update_feature_depth_max` satisfies
`featureDepth + mountOuterRadius ≤ minimalMainRadius` (no piercing).  The
second hypothesis is forced: with a large `featureDepthMin` the clamp floor
wins and the claimed bound fails. -/
theorem featureDepth_safety (P : Params)
    (h1 : P.mountCylinderOuterDiameter / 2
        ≤ min ((P.topDiameter : ℝ) + P.transitionWidth)
            (min (P.bottomDiameter : ℝ) (P.middleDiameter : ℝ)) / 2)
    (h2 : P.featureDepthMin
        ≤ min ((P.topDiameter : ℝ) + P.transitionWidth)
            (min (P.bottomDiameter : ℝ) (P.middleDiameter : ℝ)) / 2
          - P.mountCylinderOuterDiameter / 2) :
    (P.update_feature_depth_max).featureDepth + P.mountCylinderOuterDiameter / 2
      ≤ min ((P.topDiameter : ℝ) + P.transitionWidth)
          (min (P.bottomDiameter : ℝ) (P.middleDiameter : ℝ)) / 2 := by
  have hfd : (P.update_feature_depth_max).featureDepth
      = clamp P.featureDepth P.featureDepthMin
          (max P.featureDepthMin
            (min (max 0
              (min ((P.topDiameter : ℝ) + P.transitionWidth)
                (min (P.bottomDiameter : ℝ) (P.middleDiameter : ℝ)) / 2
               - P.mountCylinderOuterDiameter / 2))
             P.featureDepthMax)) := rfl
  rw [hfd]
  have key := clamp_le_bound P.featureDepth P.featureDepthMin P.featureDepthMax
    (min ((P.topDiameter : ℝ) + P.transitionWidth)
      (min (P.bottomDiameter : ℝ) (P.middleDiameter : ℝ)) / 2
     - P.mountCylinderOuterDiameter / 2) (by linarith) h2
  linarith

/-- Witness for C1 at the default Parameters: both hypotheses hold and the
safety bound follows by the theorem. -/
theorem featureDepth_safety_witness :
    (defaultParams.mountCylinderOuterDiameter / 2
        ≤ min ((defaultParams.topDiameter : ℝ) + defaultParams.transitionWidth)
            (min (defaultParams.bottomDiameter : ℝ) (defaultParams.middleDiameter : ℝ)) / 2
      ∧ defaultParams.featureDepthMin
        ≤ min ((defaultParams.topDiameter : ℝ) + defaultParams.transitionWidth)
            (min (defaultParams.bottomDiameter : ℝ) (defaultParams.middleDiameter : ℝ)) / 2
          - defaultParams.mountCylinderOuterDiameter / 2) ∧
    (defaultParams.update_feature_depth_max).featureDepth
        + defaultParams.mountCylinderOuterDiameter / 2
      ≤ min ((defaultParams.topDiameter : ℝ) + defaultParams.transitionWidth)
          (min (defaultParams.bottomDiameter : ℝ) (defaultParams.middleDiameter : ℝ)) / 2 :=
  ⟨⟨by norm_num [defaultParams, min_def], by norm_num [defaultParams, min_def]⟩,
   featureDepth_safety defaultParams
     (by norm_num [defaultParams, min_def]) (by norm_num [defaultParams, min_def])⟩

/-- Counterexample to C1 as stated: at `paramsDeepMin` the radius
hypothesis of the claim holds, yet after `update_feature_depth_max` the
clamped featureDepth (held up by `featureDepthMin = 100`) violates the
claimed bound. -/
theorem featureDepth_safety_counterexample :
    (paramsDeepMin.mountCylinderOuterDiameter / 2
        ≤ min ((paramsDeepMin.topDiameter : ℝ) + paramsDeepMin.transitionWidth)
            (min (paramsDeepMin.bottomDiameter : ℝ) (paramsDeepMin.middleDiameter : ℝ)) / 2) ∧
    ¬((paramsDeepMin.update_feature_depth_max).featureDepth
        + paramsDeepMin.mountCylinderOuterDiameter / 2
      ≤ min ((paramsDeepMin.topDiameter : ℝ) + paramsDeepMin.transitionWidth)
          (min (paramsDeepMin.bottomDiameter : ℝ) (paramsDeepMin.middleDiameter : ℝ)) / 2) := by
  constructor
  · norm_num [paramsDeepMin, min_def]
  · norm_num [paramsDeepMin, Params.update_feature_depth_max, clamp, min_def, max_def]

/-- C2 (amended): for every Parameters value, every design mode and all
real `(u, v)`, the pattern displacement is bounded by `2 · |featureDepth|`;
the constant 2 is attained by mode 4, so the claimed `1.8 · featureDepth`
bound is too small. -/
theorem design_offset_abs_le_two_mul (P : Params) (u v : ℝ) :
    |design_offset u v P| ≤ 2 * |P.featureDepth| := by
  unfold design_offset
  by_cases h0 : P.designMode ≤ 0
  · rw [if_pos h0, abs_zero]
    positivity
  rw [if_neg h0]
  dsimp only
  by_cases h1 : P.designMode = 1
  · rw [if_pos h1, mul_assoc]
    exact abs_mul_le_two _ _ (abs_sin_cos_le_two _ _)
  rw [if_neg h1]
  by_cases h2 : P.designMode = 2
  · rw [if_pos h2]
    exact abs_mul_le_two _ _ (abs_sin_le_two _)
  rw [if_neg h2]
  by_cases h3 : P.designMode = 3
  · rw [if_pos h3]
    exact abs_mul_le_two _ _ (abs_abs_sin_le_two _)
  rw [if_neg h3]
  by_cases h4 : P.designMode = 4
  · rw [if_pos h4]
    exact abs_mul_le_two _ _ (abs_add_abs_sin_le_two _ _)
  rw [if_neg h4]
  by_cases h5 : P.designMode = 5
  · rw [if_pos h5, mul_assoc]
    exact abs_mul_le_two _ _ (abs_sin_mul_sin_le_two _ _)
  rw [if_neg h5]
  by_cases h6 : P.designMode = 6
  · rw [if_pos h6]
    exact abs_mul_le_two _ _ (abs_sin_le_two _)
  rw [if_neg h6]
  by_cases h7 : P.designMode = 7
  · rw [if_pos h7]
    exact abs_mul_le_two _ _ (abs_sub_abs_sin_le_two _ _)
  rw [if_neg h7]
  by_cases h8 : P.designMode = 8
  · rw [if_pos h8, mul_assoc]
    exact abs_mul_le_two _ _ (abs_half_add_sin_le_two _ _)
  rw [if_neg h8]
  by_cases h9 : P.designMode = 9
  · rw [if_pos h9, mul_assoc]
    exact abs_mul_le_two _ _ (abs_point_seven_cos_le_two _)
  rw [if_neg h9]
  by_cases h10 : P.designMode = 10
  · rw [if_pos h10, mul_assoc]
    exact abs_mul_le_two _ _ (abs_tri_wave_le_two _)
  rw [if_neg h10]
  by_cases h11 : P.designMode = 11
  · rw [if_pos h11, mul_assoc]
    exact abs_mul_le_two _ _ (abs_point_nine_abs_sin_le_two _)
  rw [if_neg h11]
  by_cases h12 : P.designMode = 12
  · rw [if_pos h12, mul_assoc]
    exact abs_mul_le_two _ _ (abs_half_mix_le_two _ _)
  rw [if_neg h12, abs_zero]
  positivity

/-- Counterexample to C2 as stated: design mode 4 with `featureCount = 1`
and `featureDepth = 1` reaches offset 2 at `u = 1/2`, `v = π/2` (a point
inside the claimed domain), exceeding the claimed `1.8 · featureDepth`. -/
theorem design_offset_bound_counterexample :
    ((0:ℝ) ≤ 1/2 ∧ (1/2:ℝ) ≤ 1 ∧ (0:ℝ) ≤ Real.pi/2 ∧ Real.pi/2 < 2*Real.pi) ∧
    ¬(|design_offset (1/2) (Real.pi/2) paramsMode4| ≤ 1.8 * paramsMode4.featureDepth) := by
  have hpi := Real.pi_pos
  constructor
  · exact ⟨by norm_num, by norm_num, by positivity, by linarith⟩
  · have hval : design_offset (1/2) (Real.pi/2) paramsMode4 = 2 := by
      unfold design_offset paramsMode4
      norm_num
      rw [show Real.pi * (1/2) = Real.pi/2 by ring, Real.sin_pi_div_two]
      norm_num
    rw [hval]
    norm_num [paramsMode4]

/-- C6 (amended): with patterns disabled (mode 0, negative, or any
unrecognized mode above 12) the offset is exactly 0 for all inputs, and
wherever the profile is nonnegative the emitted outer-shell radius
`sqrt(x² + z²)` equals `quadratic_profile u P` exactly, independent of `v`.
The nonnegativity proviso is forced: a negative profile is clamped to 0. -/
theorem pattern_disabled_radius (P : Params) (u v : ℝ)
    (hm : P.designMode ≤ 0 ∨ 12 < P.designMode) :
    design_offset u v P = 0 ∧
    (0 ≤ quadratic_profile u P →
      Real.sqrt ((compute_outer_vertex u v P).1 ^ 2 + (compute_outer_vertex u v P).2.2 ^ 2)
        = quadratic_profile u P) := by
  have hoff : design_offset u v P = 0 := by
    unfold design_offset
    by_cases h0 : P.designMode ≤ 0
    · rw [if_pos h0]
    rw [if_neg h0]
    dsimp only
    have h12 : 12 < P.designMode := by omega
    rw [if_neg (by omega : ¬P.designMode = 1), if_neg (by omega : ¬P.designMode = 2),
      if_neg (by omega : ¬P.designMode = 3), if_neg (by omega : ¬P.designMode = 4),
      if_neg (by omega : ¬P.designMode = 5), if_neg (by omega : ¬P.designMode = 6),
      if_neg (by omega : ¬P.designMode = 7), if_neg (by omega : ¬P.designMode = 8),
      if_neg (by omega : ¬P.designMode = 9), if_neg (by omega : ¬P.designMode = 10),
      if_neg (by omega : ¬P.designMode = 11), if_neg (by omega : ¬P.designMode = 12)]
  refine ⟨hoff, fun hprof => ?_⟩
  unfold compute_outer_vertex
  dsimp only
  rw [hoff, add_zero, max_eq_right hprof]
  have hsq : (quadratic_profile u P * Real.cos v) ^ 2
      + (quadratic_profile u P * Real.sin v) ^ 2 = (quadratic_profile u P) ^ 2 := by
    have hid := Real.sin_sq_add_cos_sq v
    linear_combination (quadratic_profile u P) ^ 2 * hid
  rw [hsq, Real.sqrt_sq hprof]

/-- Witness for C6 at `designMode = 0`, `u = v = 0`: the disjunctive mode
hypothesis and the nonnegative-profile hypothesis both hold, and the
emitted radius equals the profile. -/
theorem pattern_disabled_radius_witness :
    ((paramsNoPattern.designMode ≤ 0 ∨ 12 < paramsNoPattern.designMode) ∧
      0 ≤ quadratic_profile 0 paramsNoPattern) ∧
    Real.sqrt ((compute_outer_vertex 0 0 paramsNoPattern).1 ^ 2
        + (compute_outer_vertex 0 0 paramsNoPattern).2.2 ^ 2)
      = quadratic_profile 0 paramsNoPattern :=
  ⟨⟨Or.inl (by norm_num [paramsNoPattern]),
    by norm_num [quadratic_profile, paramsNoPattern]⟩,
   (pattern_disabled_radius paramsNoPattern 0 0
      (Or.inl (by norm_num [paramsNoPattern]))).2
    (by norm_num [quadratic_profile, paramsNoPattern])⟩

/-- Counterexample to C6 as stated: with a negative top diameter the
profile at `u = 0` is negative, the radius clamp floors it at 0, and the
emitted radius differs from the profile. -/
theorem pattern_disabled_radius_counterexample :
    Real.sqrt ((compute_outer_vertex 0 0 paramsNegTop).1 ^ 2
        + (compute_outer_vertex 0 0 paramsNegTop).2.2 ^ 2)
      ≠ quadratic_profile 0 paramsNegTop := by
  have hprof : quadratic_profile 0 paramsNegTop = -1 := by
    norm_num [quadratic_profile, paramsNegTop]
  have hoff : design_offset 0 0 paramsNegTop = 0 := by
    norm_num [design_offset, paramsNegTop]
  have hx : (compute_outer_vertex 0 0 paramsNegTop).1 = 0 := by
    unfold compute_outer_vertex
    dsimp only
    rw [hoff, hprof]
    norm_num
  have hz : (compute_outer_vertex 0 0 paramsNegTop).2.2 = 0 := by
    unfold compute_outer_vertex
    dsimp only
    rw [hoff, hprof]
    norm_num
  rw [hx, hz, hprof]
  norm_num [Real.sqrt_zero]

/-- C3 (amended): region-by-region element counts for `D = detail` (as a
natural number): the outer shell adds `4·D²` vertices and `2·D²` triangles,
the bottom cap adds `2·D + 1` new vertices (one center plus two unshared rim
vertices per step — not the claimed `D + 1`) and `D` triangles, the
transition skirt adds `2·D²` triangles, the mount-cylinder side `2·D`
triangles, the top cap `D` triangles; totals for the full build follow. -/
theorem mesh_region_counts (P : Params) (s : MeshState) :
    ((shellRegion P P.detail.toNat s).vertices).length
        = s.vertices.length + 4 * P.detail.toNat ^ 2 ∧
    ((shellRegion P P.detail.toNat s).faces).length
        = s.faces.length + 2 * P.detail.toNat ^ 2 ∧
    ((bottomCapRegion P P.detail.toNat s).vertices).length
        = s.vertices.length + (2 * P.detail.toNat + 1) ∧
    ((bottomCapRegion P P.detail.toNat s).faces).length
        = s.faces.length + P.detail.toNat ∧
    ((transitionRegion P P.detail.toNat s).faces).length
        = s.faces.length + 2 * P.detail.toNat ^ 2 ∧
    ((mountSideRegion P P.detail.toNat s).faces).length
        = s.faces.length + 2 * P.detail.toNat ∧
    ((topCapRegion P P.detail.toNat s).faces).length
        = s.faces.length + P.detail.toNat ∧
    ((build_mesh_arrays P).2.vertices).length
        = 8 * P.detail.toNat ^ 2 + 8 * P.detail.toNat + 2 ∧
    ((build_mesh_arrays P).2.faces).length
        = 4 * P.detail.toNat ^ 2 + 4 * P.detail.toNat := by
  have hd : ((P.update_transition).update_feature_depth_max).detail = P.detail := rfl
  refine ⟨shellRegion_vertices_length P _ s, shellRegion_faces_length P _ s,
    bottomCapRegion_vertices_length P _ s, bottomCapRegion_faces_length P _ s,
    transitionRegion_faces_length P _ s, mountSideRegion_faces_length P _ s,
    topCapRegion_faces_length P _ s, ?_, ?_⟩
  · simp only [build_mesh_arrays]
    rw [topCapRegion_vertices_length, mountSideRegion_vertices_length,
      transitionRegion_vertices_length, bottomCapRegion_vertices_length,
      shellRegion_vertices_length, hd]
    simp only [List.length_nil]
    ring
  · simp only [build_mesh_arrays]
    rw [topCapRegion_faces_length, mountSideRegion_faces_length,
      transitionRegion_faces_length, bottomCapRegion_faces_length,
      shellRegion_faces_length, hd]
    simp only [List.length_nil]
    ring

/-- Counterexample to C3 as stated: at `detail = 1` the bottom cap appends
3 new vertices (one center plus two per fan step), not `D + 1 = 2`. -/
theorem bottomCap_vertex_count_counterexample :
    ((bottomCapRegion paramsDetail1 paramsDetail1.detail.toNat
        (⟨[], []⟩ : MeshState)).vertices).length = 3 ∧
    ¬((3:ℕ) = paramsDetail1.detail.toNat + 1) := by
  have hd : paramsDetail1.detail.toNat = 1 := rfl
  constructor
  · rw [bottomCapRegion_vertices_length, hd]
    rfl
  · rw [hd]
    decide

theorem build_mesh_detail_nonpos (P : Params) (h : P.detail ≤ 0) :
    (build_mesh_arrays P).2.faces = [] ∧
    ((build_mesh_arrays P).2.vertices).length = 2 := by
  have hd : ((P.update_transition).update_feature_depth_max).detail = P.detail := rfl
  have h0 : ((P.update_transition).update_feature_depth_max).detail.toNat = 0 := by
    rw [hd]
    exact Int.toNat_of_nonpos h
  simp only [build_mesh_arrays, h0]
  constructor <;>
    simp [shellRegion, bottomCapRegion, transitionRegion, mountSideRegion, topCapRegion,
      add_vertex, add_tri]

/-- C4 (amended): for `detail ≤ 0` the builder raises no error (it is a
total function) and emits no triangles, but the vertex sequence is not
empty: the two unconditional cap-center vertices are still appended, so
exactly 2 vertices are returned. -/
theorem degenerate_detail_mesh (P : Params) (h : P.detail ≤ 0) :
    (build_mesh_arrays P).2.faces = [] ∧
    ((build_mesh_arrays P).2.vertices).length = 2 :=
  build_mesh_detail_nonpos P h

/-- Witness for C4 at `detail = 0`. -/
theorem degenerate_detail_mesh_witness :
    paramsDetail0.detail ≤ 0 ∧
    ((build_mesh_arrays paramsDetail0).2.faces = [] ∧
      ((build_mesh_arrays paramsDetail0).2.vertices).length = 2) :=
  ⟨by decide, degenerate_detail_mesh paramsDetail0 (by decide)⟩

/-- Counterexample to C4 as stated: at `detail = 0` the returned vertex
sequence is not empty (it holds the two cap centers). -/
theorem degenerate_detail_counterexample :
    (build_mesh_arrays paramsDetail0).2.vertices ≠ [] := by
  have h2 := (build_mesh_detail_nonpos paramsDetail0 (by decide)).2
  intro hnil
  rw [hnil] at h2
  simp at h2

/-- C9: every triangle emitted by `build_mesh_arrays` references only
valid vertex positions: each of its three (naturally nonnegative) indices
is strictly below the number of returned vertices, for every Parameters
value including nonpositive detail. -/
theorem faces_index_bounds (P : Params) :
    ∀ t ∈ (build_mesh_arrays P).2.faces,
      t.1 < ((build_mesh_arrays P).2.vertices).length ∧
      t.2.1 < ((build_mesh_arrays P).2.vertices).length ∧
      t.2.2 < ((build_mesh_arrays P).2.vertices).length :=
  build_mesh_arrays_valid P

/-- Witness for C9 at `detail = 1`: the first emitted shell triangle
`(0, 1, 2)` is in the face list and its indices are in bounds. -/
theorem faces_index_bounds_witness :
    (((0, 1, 2) : ℕ × ℕ × ℕ) ∈ (build_mesh_arrays paramsDetail1).2.faces) ∧
    (0 < ((build_mesh_arrays paramsDetail1).2.vertices).length ∧
     1 < ((build_mesh_arrays paramsDetail1).2.vertices).length ∧
     2 < ((build_mesh_arrays paramsDetail1).2.vertices).length) := by
  have hmem : (((0, 1, 2) : ℕ × ℕ × ℕ)) ∈ (build_mesh_arrays paramsDetail1).2.faces := by
    simp [build_mesh_arrays, shellRegion, bottomCapRegion, transitionRegion,
      mountSideRegion, topCapRegion, shellCell, transitionCell, add_vertex, add_tri,
      Params.update_transition, Params.update_feature_depth_max, paramsDetail1,
      List.range_succ]
  exact ⟨hmem, faces_index_bounds paramsDetail1 (0, 1, 2) hmem⟩
